import Mathlib

/-!
Verification of the LIIWeb JSON API client (`liiweb/client.py`).

The client is a thin wrapper over HTTP: every operation builds a request,
sends it, checks the status, and unwraps the JSON:API envelope.  We embed
the response-handling logic of each operation as a pure Lean function of
the HTTP response(s) the server returns, and the request-construction
logic as pure functions producing query-parameter lists and request URLs.

Python semantics that matter here are modelled explicitly:
  * subscripting `info['data']` on a dict raises `KeyError` when absent and
    `TypeError` on non-dicts;
  * `x.get(k, default)` works on dicts and raises `AttributeError` otherwise;
  * truthiness of JSON values (empty list / dict / string, 0, None, False
    are falsy);
  * `requests.Response.raise_for_status` raises `HTTPError` exactly when
    400 <= status < 600;
  * `log.error` emissions are collected as a list of strings.
-/

/-- A JSON value, as decoded by `resp.json()`. Numbers are modelled as
integers, which suffices for the identifiers exchanged by this client. -/
inductive Json where
  | null : Json
  | bool : Bool → Json
  | num : Int → Json
  | str : String → Json
  | arr : List Json → Json
  | obj : List (String × Json) → Json

/-- Python exceptions that the client's code paths can raise. -/
inductive PyError where
  | httpError : Nat → PyError
  | keyError : String → PyError
  | attributeError : PyError
  | typeError : PyError
  | indexError : PyError
deriving DecidableEq

/-- An HTTP response: status code, decoded JSON body (`resp.json()`), and
raw body text (`resp.text`, used by the error log lines). -/
structure Response where
  status : Nat
  body : Json
  text : String

/-- Python truthiness of a JSON value. -/
def Json.truthy : Json → Bool
  | .null => false
  | .bool b => b
  | .num n => n != 0
  | .str s => s != ""
  | .arr xs => !xs.isEmpty
  | .obj fs => !fs.isEmpty

/-- `info[k]` on a decoded JSON value: dict lookup raising `KeyError` when
the key is absent, `TypeError` when the value is not a dict. -/
def Json.getKey : Json → String → Except PyError Json
  | .obj fs, k =>
    match fs.find? (fun p => p.1 == k) with
    | some p => .ok p.2
    | none => .error (.keyError k)
  | _, _ => .error .typeError

/-- `x.get(k, default)`: only dicts have a `get` method (`AttributeError`
otherwise); absent keys give the default. -/
def Json.dictGet : Json → String → Json → Except PyError Json
  | .obj fs, k, dflt => .ok (((fs.find? (fun p => p.1 == k)).map Prod.snd).getD dflt)
  | _, _, _ => .error .attributeError

/-- `x.get(k)` with the implicit `None` default, returned as `Option`. -/
def Json.dictGetOpt : Json → String → Except PyError (Option Json)
  | .obj fs, k => .ok ((fs.find? (fun p => p.1 == k)).map Prod.snd)
  | _, _ => .error .attributeError

/-- Does this JSON value have the shape of a dict? -/
def Json.isObj : Json → Bool
  | .obj _ => true
  | _ => false

/-- Key membership in a JSON dict (`false` on non-dicts). -/
def Json.hasKey : Json → String → Bool
  | .obj fs, k => (fs.find? (fun p => p.1 == k)).isSome
  | _, _ => false

/-- `xs[0]` in Python: first element of a list, first character of a
string, `IndexError` on empty sequences, `KeyError` on a dict (lookup of
the integer key 0, absent from string-keyed dicts), `TypeError` otherwise. -/
def Json.index0 : Json → Except PyError Json
  | .arr (x :: _) => .ok x
  | .arr [] => .error .indexError
  | .str s =>
    match s.toList with
    | c :: _ => .ok (.str (String.mk [c]))
    | [] => .error .indexError
  | .obj _ => .error (.keyError "0")
  | _ => .error .typeError

/-- Iterating a JSON value (`results.extend(info['data'])`): lists yield
their elements, strings their characters, dicts their keys; other values
raise `TypeError`. -/
def Json.pyIter : Json → Except PyError (List Json)
  | .arr xs => .ok xs
  | .str s => .ok (s.toList.map (fun c => .str (String.mk [c])))
  | .obj fs => .ok (fs.map (fun p => .str p.1))
  | _ => .error .typeError

/-- `requests.Response.raise_for_status`: raises `HTTPError` exactly for
4xx and 5xx status codes. -/
def raise_for_status (r : Response) : Except PyError Unit :=
  if 400 ≤ r.status ∧ r.status < 600 then .error (.httpError r.status) else .ok ()

/-- `','.join(fields)` guarded by Python truthiness of the `fields`
argument (`None` and the empty tuple are both falsy). -/
def fieldsTruthy : Option (List String) → Bool
  | none => false
  | some fs => !fs.isEmpty

/-- Query parameters built by `find_legislation` for a given FRBR URI
filter value and `fields` argument. -/
def find_legislation_params (uriFilter : String) (fields : Option (List String)) :
    List (String × String) :=
  let base := [("filter[field_frbr_uri][value]", uriFilter),
               ("filter[field_frbr_uri][operator]", "STARTS_WITH")]
  if fieldsTruthy fields then
    base ++ [("fields[node--legislation]", String.intercalate "," (fields.getD []))]
  else base

/-- Query parameters built by `get_legislation` for a given `fields`
argument. -/
def get_legislation_params (fields : Option (List String)) : List (String × String) :=
  if fieldsTruthy fields then
    [("fields[node--legislation]", String.intercalate "," (fields.getD []))]
  else []

/-- Response handling of `find_legislation`: raise for status, then return
`info['data'][0]` when `info['data']` is truthy, else an absent result. -/
def find_legislation (resp : Response) : Except PyError (Option Json) := do
  raise_for_status resp
  let d ← resp.body.getKey "data"
  if d.truthy then
    let x ← d.index0
    pure (some x)
  else
    pure none

/-- Response handling of `get_legislation`: a 404 yields an absent result
before any status check; otherwise raise for status, then return
`info['data']` when truthy, else absent. -/
def get_legislation (resp : Response) : Except PyError (Option Json) :=
  if resp.status = 404 then .ok none
  else do
    raise_for_status resp
    let d ← resp.body.getKey "data"
    if d.truthy then pure (some d) else pure none

/-- Response handling of `create_legislation_work`: log the raw response
body when the status is >= 400, then raise for status and return
`resp.json()['data']`.  The first component collects the `log.error`
emissions in order. -/
def create_legislation_work (resp : Response) : List String × Except PyError Json :=
  (if 400 ≤ resp.status then ["Error from lii: " ++ resp.text] else [],
   do
     raise_for_status resp
     resp.body.getKey "data")

/-- Response handling of `create_legislation`: identical to
`create_legislation_work` (only the request URL differs). -/
def create_legislation (resp : Response) : List String × Except PyError Json :=
  (if 400 ≤ resp.status then ["Error from lii: " ++ resp.text] else [],
   do
     raise_for_status resp
     resp.body.getKey "data")

/-- Response handling of `delete_legislation`: raise for status, return
nothing. -/
def delete_legislation (resp : Response) : List String × Except PyError Unit :=
  ([], raise_for_status resp)

/-- Response handling of `update_legislation`: raise for status (with no
log emission), then return `resp.json()['data']`. -/
def update_legislation (resp : Response) : List String × Except PyError Json :=
  ([], do
     raise_for_status resp
     resp.body.getKey "data")

/-- Response handling of `upload_file`: log the raw response body when the
status is >= 400, raise for status, then return
`resp.json()['data']['id']`. -/
def upload_file (resp : Response) : List String × Except PyError Json :=
  (if 400 ≤ resp.status then ["Error from lii: " ++ resp.text] else [],
   do
     raise_for_status resp
     let d ← resp.body.getKey "data"
     d.getKey "id")

/-- Response handling of `list_legislation_files`: raise for status, then
return `resp.json()['data']`. -/
def list_legislation_files (resp : Response) : Except PyError Json := do
  raise_for_status resp
  resp.body.getKey "data"

/-- Python's `s.startswith(pre)`, on the character sequences of the two
strings. -/
def pyStartsWith (s pre : String) : Bool :=
  pre.data.isPrefixOf s.data

/-- Python's `s[n:]`: drop the first `n` characters. -/
def pyDrop (s : String) (n : Nat) : String :=
  String.mk (s.data.drop n)

/-- The insecure-scheme rewrite applied to a next-page URL:
`if url.startswith('http://'): url = 'https://' + url[7:]`. -/
def rewriteScheme (s : String) : String :=
  if pyStartsWith s "http://" then "https://" ++ pyDrop s 7 else s

/-- `url = info['links'].get('next', {}).get('href')` followed by the
insecure-scheme rewrite guarded by `if url and ...`.  The result is the
value of the Python variable `url` after this block; every falsy value
(`None`, the empty string) is represented as `""`, since the only further
use of `url` is the loop's truthiness test.  A truthy non-string `href`
raises `AttributeError` from `url.startswith`. -/
def nextTarget (info : Json) : Except PyError String := do
  let links ← info.getKey "links"
  let nextv ← links.dictGet "next" (Json.obj [])
  let href ← nextv.dictGetOpt "href"
  match href with
  | none => pure ""
  | some j =>
    if j.truthy then
      match j with
      | .str s => pure (rewriteScheme s)
      | _ => .error .attributeError
    else pure ""

/-- One iteration of the `list_legislation` loop body on the response to
the current request: raise for status, extend the accumulator with
`info['data']`, and compute the next value of `url`. -/
def pageStep (resp : Response) : Except PyError (List Json × String) := do
  raise_for_status resp
  let d ← resp.body.getKey "data"
  let items ← d.pyIter
  let nxt ← nextTarget resp.body
  pure (items, nxt)

/-- A request issued during the `list_legislation` loop: its URL and the
query parameters passed alongside it. -/
structure PageReq where
  url : String
  params : List (String × String)
deriving DecidableEq

/-- Outcome of a `list_legislation` run over a finite list of server
responses. -/
inductive RunOutcome where
  | ok : List Json → RunOutcome
  | error : PyError → RunOutcome
  | outOfPages : PageReq → RunOutcome

/-- The `while url:` loop of `list_legislation`, driven by the finite list
of responses the server returns to the successive requests.  Returns the
requests issued (in order) and the outcome: `ok` with the accumulated
results when the loop exits because `url` became falsy, `error` when an
iteration raises, `outOfPages` when the response list is exhausted while a
request is still pending. -/
def list_legislation_go (url : String) (params : List (String × String))
    (acc : List Json) : List Response → List PageReq × RunOutcome
  | [] => if url = "" then ([], .ok acc) else ([], .outOfPages ⟨url, params⟩)
  | resp :: rest =>
    if url = "" then ([], .ok acc)
    else
      match pageStep resp with
      | .error e => ([⟨url, params⟩], .error e)
      | .ok (items, nextUrl) =>
        let r := list_legislation_go nextUrl [] (acc ++ items) rest
        (⟨url, params⟩ :: r.1, r.2)

/-- Query parameters of the first `list_legislation` request. -/
def list_legislation_params (place_code : String) : List (String × String) :=
  [("filter[field_frbr_uri][value]", "/akn/" ++ place_code ++ "/"),
   ("filter[field_frbr_uri][operator]", "STARTS_WITH"),
   ("fields[node--legislation]", "field_frbr_uri")]

/-- `list_legislation(place_code)` on a client with base URL `base`,
driven by the finite list of responses the server returns. -/
def list_legislation (base place_code : String) (resps : List Response) :
    List PageReq × RunOutcome :=
  list_legislation_go (base ++ "/jsonapi/node/legislation")
    (list_legislation_params place_code) [] resps

/-- A successful middle page of a listing: its `data` items and the
`links.next.href` value pointing at the following page. -/
def mkMidResp (p : List Json × String) : Response :=
  ⟨200, Json.obj [("data", Json.arr p.1),
                  ("links", Json.obj [("next", Json.obj [("href", Json.str p.2)])])],
   ""⟩

/-- A successful final page of a listing: its `data` items, with a `links`
object carrying no `next` entry. -/
def mkLastResp (items : List Json) : Response :=
  ⟨200, Json.obj [("data", Json.arr items), ("links", Json.obj [])], ""⟩

/-! ### Helper lemmas -/

lemma https_append_ne_empty (t : String) : ("https://" ++ t) ≠ "" := by
  intro h
  have h2 := congrArg String.length h
  simp [String.length_append] at h2
  exact absurd h2.1 (by decide)

lemma rewriteScheme_ne_empty {s : String} (h : s ≠ "") : rewriteScheme s ≠ "" := by
  unfold rewriteScheme
  split
  · exact https_append_ne_empty _
  · exact h

lemma jsonapi_url_ne_empty (b : String) : (b ++ "/jsonapi/node/legislation") ≠ "" := by
  intro h
  have h2 := congrArg String.length h
  simp [String.length_append] at h2
  exact absurd h2.2 (by decide)

lemma pyStartsWith_ne_empty {s : String} (h : pyStartsWith s "http://" = true) : s ≠ "" := by
  intro h2
  subst h2
  exact absurd h (by decide)

lemma pageStep_mkLastResp (items : List Json) :
    pageStep (mkLastResp items) = .ok (items, "") := rfl

lemma pageStep_mkMidResp (items : List Json) (u : String) (hu : u ≠ "") :
    pageStep (mkMidResp (items, u)) = .ok (items, rewriteScheme u) := by
  simp [pageStep, mkMidResp, raise_for_status, Json.getKey, Json.pyIter, nextTarget,
    Json.dictGet, Json.dictGetOpt, Json.truthy, Except.bind, Except.map, bind, Functor.map,
    pure, Except.pure, hu]

lemma pageStep_error {r : Response} (h4 : 400 ≤ r.status) (h6 : r.status < 600) :
    pageStep r = .error (.httpError r.status) := by
  simp [pageStep, raise_for_status, Except.bind, bind, h4, h6]

/-- Running the listing loop over a chain of successful middle pages
followed by a final page: the loop issues one request per page — the first
with the given parameters, each later one at the (scheme-rewritten) next
link with no parameters — and accumulates every page's items in order. -/
lemma go_chain (mid : List (List Json × String)) (last : List Json)
    (url : String) (params : List (String × String)) (acc : List Json)
    (hurl : url ≠ "") (hmid : ∀ p ∈ mid, p.2 ≠ "") :
    list_legislation_go url params acc (mid.map mkMidResp ++ [mkLastResp last]) =
      (⟨url, params⟩ :: mid.map (fun p => (⟨rewriteScheme p.2, []⟩ : PageReq)),
       .ok (acc ++ ((mid.map Prod.fst).flatten ++ last))) := by
  induction mid generalizing url params acc with
  | nil =>
    simp [list_legislation_go, hurl, pageStep_mkLastResp]
  | cons p rest ih =>
    have hp : p.2 ≠ "" := hmid p (by simp)
    have hrest : ∀ q ∈ rest, q.2 ≠ "" := fun q hq => hmid q (by simp [hq])
    simp only [List.map_cons, List.cons_append, list_legislation_go, if_neg hurl,
      pageStep_mkMidResp p.1 p.2 hp, List.append_eq]
    rw [ih (rewriteScheme p.2) [] _ (rewriteScheme_ne_empty hp) hrest]
    simp

/-- Running the listing loop over successful middle pages followed by a
failing page (and any trailing responses): the whole run fails with the
failing page's HTTP error and yields no accumulated items. -/
lemma go_chain_fail (mid : List (List Json × String)) (r : Response)
    (rest : List Response) (url : String) (params : List (String × String))
    (acc : List Json) (hurl : url ≠ "") (hmid : ∀ p ∈ mid, p.2 ≠ "")
    (h4 : 400 ≤ r.status) (h6 : r.status < 600) :
    (list_legislation_go url params acc (mid.map mkMidResp ++ r :: rest)).2 =
      .error (.httpError r.status) := by
  induction mid generalizing url params acc with
  | nil =>
    simp [list_legislation_go, hurl, pageStep_error h4 h6]
  | cons p tail ih =>
    have hp : p.2 ≠ "" := hmid p (by simp)
    have htail : ∀ q ∈ tail, q.2 ≠ "" := fun q hq => hmid q (by simp [hq])
    simp only [List.map_cons, List.cons_append, list_legislation_go, if_neg hurl,
      pageStep_mkMidResp p.1 p.2 hp, List.append_eq]
    exact ih (rewriteScheme p.2) [] _ (rewriteScheme_ne_empty hp) htail

lemma getKey_missing {j : Json} {k : String} (hobj : j.isObj = true)
    (hk : j.hasKey k = false) : j.getKey k = .error (.keyError k) := by
  cases j with
  | obj fs =>
    simp only [Json.hasKey] at hk
    simp only [Json.getKey]
    cases h : List.find? (fun p => p.1 == k) fs with
    | none => rfl
    | some p =>
      rw [h] at hk
      simp at hk
  | null => simp [Json.isObj] at hobj
  | bool b => simp [Json.isObj] at hobj
  | num n => simp [Json.isObj] at hobj
  | str s => simp [Json.isObj] at hobj
  | arr xs => simp [Json.isObj] at hobj

lemma raise_ok {r : Response} (hs : r.status < 400) : raise_for_status r = .ok () := by
  unfold raise_for_status
  rw [if_neg]
  omega

/-! ### Claims -/

/-- C1 counterexample: on a success response whose body lacks the `data`
member, `get_legislation` does not return an absent result (it raises a
`KeyError`), contradicting the claim's "success with `data` absent or
empty returns absent". -/
theorem get_legislation_missing_data_not_absent :
    get_legislation ⟨200, Json.obj [], ""⟩ ≠ Except.ok none := by
  simp [show get_legislation ⟨200, Json.obj [], ""⟩
          = Except.error (PyError.keyError "data") from rfl]

/-- C1 (amended): `get_legislation` returns absent on a 404; fails with
the HTTP error on any other error status (4xx/5xx); on a success status
returns the body's `data` member verbatim when it is present and truthy,
returns absent when it is present but empty/falsy, and fails with a
`KeyError` when it is absent. -/
theorem get_legislation_cases (r : Response) (d : Json) :
    (r.status = 404 → get_legislation r = .ok none) ∧
    (r.status ≠ 404 → 400 ≤ r.status → r.status < 600 →
      get_legislation r = .error (.httpError r.status)) ∧
    (r.status < 400 → r.body.getKey "data" = .ok d → d.truthy = true →
      get_legislation r = .ok (some d)) ∧
    (r.status < 400 → r.body.getKey "data" = .ok d → d.truthy = false →
      get_legislation r = .ok none) ∧
    (r.status < 400 → r.body.isObj = true → r.body.hasKey "data" = false →
      get_legislation r = .error (.keyError "data")) := by
  refine ⟨?_, ?_, ?_, ?_, ?_⟩
  · intro h
    simp [get_legislation, h]
  · intro h404 h4 h6
    simp [get_legislation, h404, raise_for_status, h4, h6, Except.bind, bind]
  · intro hs hd ht
    have h404 : ¬ r.status = 404 := by omega
    simp [get_legislation, h404, raise_ok hs, hd, ht, Except.bind, bind, pure, Except.pure]
  · intro hs hd ht
    have h404 : ¬ r.status = 404 := by omega
    simp [get_legislation, h404, raise_ok hs, hd, ht, Except.bind, bind, pure, Except.pure]
  · intro hs hobj hnk
    have h404 : ¬ r.status = 404 := by omega
    simp [get_legislation, h404, raise_ok hs, getKey_missing hobj hnk, Except.bind, bind]

/-- C1 witness: the five branches at concrete responses. -/
theorem get_legislation_cases_witness :
    get_legislation ⟨404, Json.null, ""⟩ = .ok none ∧
    get_legislation ⟨500, Json.obj [], ""⟩ = .error (.httpError 500) ∧
    get_legislation ⟨200, Json.obj [("data", Json.str "x")], ""⟩ = .ok (some (Json.str "x")) ∧
    get_legislation ⟨200, Json.obj [("data", Json.arr [])], ""⟩ = .ok none ∧
    get_legislation ⟨200, Json.obj [], ""⟩ = .error (.keyError "data") :=
  ⟨(get_legislation_cases ⟨404, Json.null, ""⟩ Json.null).1 rfl,
   (get_legislation_cases ⟨500, Json.obj [], ""⟩ Json.null).2.1
     (by decide) (by decide) (by decide),
   (get_legislation_cases ⟨200, Json.obj [("data", Json.str "x")], ""⟩ (Json.str "x")).2.2.1
     (by decide) rfl rfl,
   (get_legislation_cases ⟨200, Json.obj [("data", Json.arr [])], ""⟩ (Json.arr [])).2.2.2.1
     (by decide) rfl rfl,
   (get_legislation_cases ⟨200, Json.obj [], ""⟩ Json.null).2.2.2.2
     (by decide) rfl rfl⟩

/-- C2: on a successful response, `find_legislation` returns absent when
the `data` array is empty (not an error), and the first record of the
`data` array, in server order, when it is non-empty. -/
theorem find_legislation_first_or_absent (r : Response) (x : Json) (xs : List Json)
    (hs : r.status < 400) :
    (r.body.getKey "data" = .ok (Json.arr []) → find_legislation r = .ok none) ∧
    (r.body.getKey "data" = .ok (Json.arr (x :: xs)) →
      find_legislation r = .ok (some x)) := by
  refine ⟨?_, ?_⟩
  · intro hd
    simp [find_legislation, raise_ok hs, hd, Json.truthy, Except.bind, bind, pure, Except.pure]
  · intro hd
    simp [find_legislation, raise_ok hs, hd, Json.truthy, Json.index0,
      Except.bind, bind, pure, Except.pure]

/-- C2 witness: both branches at concrete responses. -/
theorem find_legislation_first_or_absent_witness :
    find_legislation ⟨200, Json.obj [("data", Json.arr [])], ""⟩ = .ok none ∧
    find_legislation ⟨200, Json.obj [("data", Json.arr [Json.num 7, Json.num 8])], ""⟩
      = .ok (some (Json.num 7)) :=
  ⟨(find_legislation_first_or_absent ⟨200, Json.obj [("data", Json.arr [])], ""⟩
      Json.null [] (by decide)).1 rfl,
   (find_legislation_first_or_absent
      ⟨200, Json.obj [("data", Json.arr [Json.num 7, Json.num 8])], ""⟩
      (Json.num 7) [Json.num 8] (by decide)).2 rfl⟩

/-- C5: on any error-status response (4xx/5xx), `create_legislation_work`,
`create_legislation` and `upload_file` each emit exactly one error-log
line containing the raw response body, then fail with the HTTP error for
that status, returning no value. -/
theorem create_upload_log_then_fail (r : Response) (h4 : 400 ≤ r.status)
    (h6 : r.status < 600) :
    create_legislation_work r
      = (["Error from lii: " ++ r.text], .error (.httpError r.status)) ∧
    create_legislation r
      = (["Error from lii: " ++ r.text], .error (.httpError r.status)) ∧
    upload_file r
      = (["Error from lii: " ++ r.text], .error (.httpError r.status)) := by
  refine ⟨?_, ?_, ?_⟩ <;>
    simp [create_legislation_work, create_legislation, upload_file, raise_for_status,
      h4, h6, Except.bind, bind]

/-- C5 witness: a 422 response with body text "Unprocessable". -/
theorem create_upload_log_then_fail_witness :
    create_legislation_work ⟨422, Json.obj [], "Unprocessable"⟩
      = (["Error from lii: Unprocessable"], .error (.httpError 422)) ∧
    upload_file ⟨422, Json.obj [], "Unprocessable"⟩
      = (["Error from lii: Unprocessable"], .error (.httpError 422)) :=
  ⟨(create_upload_log_then_fail ⟨422, Json.obj [], "Unprocessable"⟩
      (by decide) (by decide)).1,
   (create_upload_log_then_fail ⟨422, Json.obj [], "Unprocessable"⟩
      (by decide) (by decide)).2.2⟩

/-- C6: on a successful response, `upload_file` returns exactly the `id`
member of the body's `data` object (and not the full `data` record),
emitting no log line. -/
theorem upload_file_returns_id (r : Response) (d i : Json) (hs : r.status < 400)
    (hd : r.body.getKey "data" = .ok d) (hi : d.getKey "id" = .ok i) :
    upload_file r = ([], .ok i) := by
  have h1 : ¬ 400 ≤ r.status := by omega
  simp [upload_file, raise_for_status, h1, hd, hi, Except.bind, bind]

/-- C6 witness: the id "abc-123" is returned, not the enclosing record. -/
theorem upload_file_returns_id_witness :
    upload_file ⟨201, Json.obj [("data", Json.obj [("id", Json.str "abc-123"),
        ("type", Json.str "file--file")])], ""⟩ = ([], .ok (Json.str "abc-123")) :=
  upload_file_returns_id _ (Json.obj [("id", Json.str "abc-123"),
      ("type", Json.str "file--file")]) (Json.str "abc-123") (by decide) rfl rfl

/-- C7: on a success status, `update_legislation` returns the body's
`data` member; on an error status (4xx/5xx) it fails with the HTTP error
and emits no log line at all (asymmetric with the create operations). -/
theorem update_legislation_data_or_fail (r : Response) (d : Json) :
    (r.status < 400 → r.body.getKey "data" = .ok d →
      update_legislation r = ([], .ok d)) ∧
    (400 ≤ r.status → r.status < 600 →
      update_legislation r = ([], .error (.httpError r.status))) := by
  refine ⟨?_, ?_⟩
  · intro hs hd
    simp [update_legislation, raise_ok hs, hd, Except.bind, bind]
  · intro h4 h6
    simp [update_legislation, raise_for_status, h4, h6, Except.bind, bind]

/-- C7 witness: both branches at concrete responses. -/
theorem update_legislation_data_or_fail_witness :
    update_legislation ⟨200, Json.obj [("data", Json.str "rec")], ""⟩
      = ([], .ok (Json.str "rec")) ∧
    update_legislation ⟨403, Json.obj [], "denied"⟩
      = ([], .error (.httpError 403)) :=
  ⟨(update_legislation_data_or_fail ⟨200, Json.obj [("data", Json.str "rec")], ""⟩
      (Json.str "rec")).1 (by decide) rfl,
   (update_legislation_data_or_fail ⟨403, Json.obj [], "denied"⟩ Json.null).2
      (by decide) (by decide)⟩

/-- C9: the sparse-fieldset parameter is omitted from the request
parameters of both `find_legislation` and `get_legislation` when the
`fields` argument is `None` or the empty tuple, and included as the
comma-join of the field names when it is non-empty. -/
theorem fields_param_inclusion (g : String) (fields : Option (List String))
    (f : String) (fs : List String) :
    ((fields = none ∨ fields = some []) →
      (find_legislation_params g fields).lookup "fields[node--legislation]" = none ∧
      (get_legislation_params fields).lookup "fields[node--legislation]" = none) ∧
    (fields = some (f :: fs) →
      (find_legislation_params g fields).lookup "fields[node--legislation]"
        = some (String.intercalate "," (f :: fs)) ∧
      (get_legislation_params fields).lookup "fields[node--legislation]"
        = some (String.intercalate "," (f :: fs))) := by
  refine ⟨?_, ?_⟩
  · rintro (rfl | rfl) <;>
      simp [find_legislation_params, get_legislation_params, fieldsTruthy, List.lookup]
  · rintro rfl
    simp [find_legislation_params, get_legislation_params, fieldsTruthy, List.lookup]

/-- C9 witness: omitted for `fields=None`, joined for `fields=('a','b')`. -/
theorem fields_param_inclusion_witness :
    (find_legislation_params "/akn/za" none).lookup "fields[node--legislation]" = none ∧
    (get_legislation_params (some ["a", "b"])).lookup "fields[node--legislation]"
      = some "a,b" := by
  refine ⟨((fields_param_inclusion "/akn/za" none "x" []).1 (Or.inl rfl)).1, ?_⟩
  have h := ((fields_param_inclusion "/akn/za" (some ["a", "b"]) "a" ["b"]).2 rfl).2
  have h2 : String.intercalate "," ["a", "b"] = "a,b" := by decide
  rw [h2] at h
  exact h

/-- C3 counterexample: the follow-up request does not always use the
next-link URL verbatim — an insecure `http://` next link is followed at a
rewritten `https://` URL instead. -/
theorem list_legislation_next_not_verbatim :
    (list_legislation "https://lii.example" "za"
        [mkMidResp ([], "http://example.org/p2"), mkLastResp []]).1 ≠
      [⟨"https://lii.example" ++ "/jsonapi/node/legislation",
        list_legislation_params "za"⟩,
       ⟨"http://example.org/p2", []⟩] := by
  have h := congrArg Prod.fst
    (go_chain [([], "http://example.org/p2")] []
      ("https://lii.example" ++ "/jsonapi/node/legislation")
      (list_legislation_params "za") []
      (jsonapi_url_ne_empty "https://lii.example") (by decide))
  simp only [List.map_cons, List.map_nil, List.cons_append, List.nil_append] at h
  unfold list_legislation
  rw [h]
  decide

/-- C3 (amended): `list_legislation(place_code)` issues an initial request
at the collection URL with the `/akn/{place_code}/` filter and fields
parameters, follows each page's next link until absent, and returns the
concatenation of all pages' `data` arrays in page order; the filter/fields
parameters are attached only to the first request, and every subsequent
request uses the next-link URL — with an insecure `http://` scheme
rewritten to `https://` — and no extra parameters. -/
theorem list_legislation_chain (base place : String)
    (mid : List (List Json × String)) (last : List Json)
    (hmid : ∀ p ∈ mid, p.2 ≠ "") :
    list_legislation base place (mid.map mkMidResp ++ [mkLastResp last]) =
      (⟨base ++ "/jsonapi/node/legislation", list_legislation_params place⟩ ::
         mid.map (fun p => (⟨rewriteScheme p.2, []⟩ : PageReq)),
       .ok ((mid.map Prod.fst).flatten ++ last)) := by
  unfold list_legislation
  have h := go_chain mid last (base ++ "/jsonapi/node/legislation")
    (list_legislation_params place) [] (jsonapi_url_ne_empty base) hmid
  simpa using h

/-- C3 witness: a three-page chain — the filter covers `/akn/za/`, the
parameters appear only on the first request, the pages' items are
concatenated in order, and the insecure second next link is followed over
https. -/
theorem list_legislation_chain_witness :
    list_legislation "https://lii" "za"
        [mkMidResp ([Json.num 1], "https://lii/p2"),
         mkMidResp ([Json.num 2], "http://lii/p3"),
         mkLastResp [Json.num 3]] =
      ([⟨"https://lii/jsonapi/node/legislation",
         [("filter[field_frbr_uri][value]", "/akn/za/"),
          ("filter[field_frbr_uri][operator]", "STARTS_WITH"),
          ("fields[node--legislation]", "field_frbr_uri")]⟩,
        ⟨"https://lii/p2", []⟩,
        ⟨"https://lii/p3", []⟩],
       .ok [Json.num 1, Json.num 2, Json.num 3]) := by
  exact list_legislation_chain "https://lii" "za"
    [([Json.num 1], "https://lii/p2"), ([Json.num 2], "http://lii/p3")]
    [Json.num 3] (by decide)

/-- C4: during `list_legislation` pagination, a next link beginning with
`http://` is followed at the URL with the scheme prefix replaced by
`https://` and the remainder preserved. -/
theorem next_link_scheme_rewritten (base place u : String)
    (items1 items2 : List Json) (h : pyStartsWith u "http://" = true) :
    (list_legislation base place [mkMidResp (items1, u), mkLastResp items2]).1 =
      [⟨base ++ "/jsonapi/node/legislation", list_legislation_params place⟩,
       ⟨"https://" ++ pyDrop u 7, []⟩] := by
  have hu : u ≠ "" := pyStartsWith_ne_empty h
  have hh := congrArg Prod.fst
    (go_chain [(items1, u)] items2 (base ++ "/jsonapi/node/legislation")
      (list_legislation_params place) [] (jsonapi_url_ne_empty base)
      (by simpa using hu))
  simp only [List.map_cons, List.map_nil, List.cons_append, List.nil_append] at hh
  unfold list_legislation
  rw [hh]
  simp [rewriteScheme, h]

/-- C4 witness: the next link `http://example.org/page2` is followed as
`https://example.org/page2`. -/
theorem next_link_scheme_rewritten_witness :
    (list_legislation "https://lii" "za"
        [mkMidResp ([], "http://example.org/page2"), mkLastResp []]).1 =
      [⟨"https://lii/jsonapi/node/legislation", list_legislation_params "za"⟩,
       ⟨"https://example.org/page2", []⟩] := by
  have h := next_link_scheme_rewritten "https://lii" "za" "http://example.org/page2"
    [] [] (by decide)
  rw [h]
  decide

/-- C8: if some page request during `list_legislation` pagination gets an
error-status response (4xx/5xx), the whole call fails with that page's
HTTP error; the outcome carries no items, so the records accumulated from
earlier successful pages are discarded rather than returned partially. -/
theorem list_legislation_aborts_on_failing_page (base place : String)
    (mid : List (List Json × String)) (r : Response) (rest : List Response)
    (hmid : ∀ p ∈ mid, p.2 ≠ "") (h4 : 400 ≤ r.status) (h6 : r.status < 600) :
    (list_legislation base place (mid.map mkMidResp ++ r :: rest)).2 =
      RunOutcome.error (.httpError r.status) := by
  unfold list_legislation
  exact go_chain_fail mid r rest (base ++ "/jsonapi/node/legislation")
    (list_legislation_params place) [] (jsonapi_url_ne_empty base) hmid h4 h6

/-- C8 witness: one successful page followed by a 500 page — the run fails
outright, discarding the first page's item. -/
theorem list_legislation_aborts_on_failing_page_witness :
    (list_legislation "https://lii" "za"
        [mkMidResp ([Json.num 1], "https://lii/p2"), ⟨500, Json.obj [], ""⟩]).2 =
      RunOutcome.error (.httpError 500) := by
  exact list_legislation_aborts_on_failing_page "https://lii" "za"
    [([Json.num 1], "https://lii/p2")] ⟨500, Json.obj [], ""⟩ []
    (by decide) (by decide) (by decide)

/-- C10: a successful listing page whose body lacks the `links` member
makes `list_legislation` fail with a `KeyError` rather than ending
pagination, and a successful response body lacking the `data` member makes
`find_legislation` and `get_legislation` fail with a `KeyError` rather
than return absent. -/
theorem envelope_keys_required (base place : String) (items : List Json)
    (r1 r2 : Response) (h1s : r1.status < 400)
    (h1d : r1.body.getKey "data" = .ok (Json.arr items))
    (h1o : r1.body.isObj = true) (h1l : r1.body.hasKey "links" = false)
    (h2s : r2.status < 400) (h2o : r2.body.isObj = true)
    (h2d : r2.body.hasKey "data" = false) :
    (list_legislation base place [r1]).2 = RunOutcome.error (.keyError "links") ∧
    find_legislation r2 = .error (.keyError "data") ∧
    get_legislation r2 = .error (.keyError "data") := by
  refine ⟨?_, ?_, ?_⟩
  · have hps : pageStep r1 = .error (.keyError "links") := by
      simp [pageStep, raise_ok h1s, h1d, Json.pyIter, nextTarget,
        getKey_missing h1o h1l, Except.bind, bind]
    simp [list_legislation, list_legislation_go, jsonapi_url_ne_empty base, hps]
  · simp [find_legislation, raise_ok h2s, getKey_missing h2o h2d, Except.bind, bind]
  · have h404 : ¬ r2.status = 404 := by omega
    simp [get_legislation, h404, raise_ok h2s, getKey_missing h2o h2d, Except.bind, bind]

/-- C10 witness: a page with `data` but no `links`, and a body with no
`data`. -/
theorem envelope_keys_required_witness :
    (list_legislation "https://lii" "za"
        [⟨200, Json.obj [("data", Json.arr [])], ""⟩]).2 =
      RunOutcome.error (.keyError "links") ∧
    find_legislation ⟨200, Json.obj [("jsonapi", Json.str "1.0")], ""⟩
      = .error (.keyError "data") ∧
    get_legislation ⟨200, Json.obj [("jsonapi", Json.str "1.0")], ""⟩
      = .error (.keyError "data") :=
  envelope_keys_required "https://lii" "za" []
    ⟨200, Json.obj [("data", Json.arr [])], ""⟩
    ⟨200, Json.obj [("jsonapi", Json.str "1.0")], ""⟩
    (by decide) rfl rfl rfl (by decide) rfl rfl
